import Mathlib

/-!
Verification of the floydpaste pastebin core (src/main.py).

The program is a small FastAPI service over a single `pastes` table.  We embed
the table as a Lean list of records in insertion order, and each HTTP handler
as a pure function over that list.  Nondeterministic inputs of the handlers
(the randomness consumed by uuid4 and the clock reading datetime.utcnow) are
passed as explicit arguments.
-/

namespace Floydpaste

/-- One row of the `pastes` table (src/main.py lines 25-35).  The source column
named `syntax` is rendered `synt` here because that word is reserved in Lean;
timestamps are modelled as natural numbers. -/
structure Paste where
  id : String
  content : String
  title : String
  synt : String
  expires : String
  visibility : String
  created_at : Nat
deriving Repr, DecidableEq

/-- Failure modes of the HTTP surface: a missing required form field is refused
by FastAPI with a validation failure, a duplicated primary key makes the insert
fail, and a lookup miss raises HTTPException 404 (src/main.py line 101). -/
inductive ApiError where
  | validation
  | conflict
  | notFound
deriving Repr, DecidableEq

/-- HTTP status each failure is surfaced with: FastAPI answers 422 for a missing
required form field, an uncaught database integrity failure propagates as 500,
and view_paste raises status 404. -/
def statusOf : ApiError → Nat
  | .validation => 422
  | .conflict => 500
  | .notFound => 404

/-- Exact-match primary-key lookup in the `pastes` table. -/
def fetchById (store : List Paste) (pid : String) : Option Paste :=
  store.find? (fun p => p.id == pid)

/-- Row insertion.  The primary-key constraint on `id` (src/main.py line 28)
makes inserting a duplicate id fail and leaves the table unchanged; a fresh id
is appended. -/
def insertPaste (store : List Paste) (p : Paste) : Except ApiError (List Paste) :=
  match fetchById store p.id with
  | some _ => .error .conflict
  | none => .ok (store ++ [p])

/-- One POST /api/paste request body: each form field is either present with a
string value (possibly empty) or absent.  FastAPI substitutes the declared
Form default only for absent fields. -/
structure CreateRequest where
  content : Option String
  title : Option String
  synt : Option String
  expires : Option String
  visibility : Option String
deriving Repr, DecidableEq

/-- Lowercase hexadecimal digit of a nibble, as produced by the hex encoding
used by uuid4().hex: 0-9 then a-f. -/
def hexDigit (n : Nat) : Char :=
  if n < 10 then Char.ofNat (48 + n) else Char.ofNat (87 + n)

/-- The 32 lowercase hex characters of uuid4().hex for a 128-bit random value
r, most significant nibble first. -/
def uuidHexChars (r : Nat) : List Char :=
  (List.range 32).map (fun i => hexDigit (r / 16 ^ (31 - i) % 16))

/-- The id generator uuid.uuid4().hex[:8] (src/main.py line 67): the first 8
characters of the 32-character hex form of a random 128-bit value. -/
def generate (r : Nat) : String :=
  String.mk ((uuidHexChars r).take 8)

/-- The record built by create_paste (src/main.py lines 70-78) from a request
whose content field carries c, a generated id g and a clock reading now: each
optional field falls back to its declared Form default when absent. -/
def defaulted (req : CreateRequest) (g : String) (now : Nat) (c : String) : Paste :=
  { id := g
    content := c
    title := req.title.getD "Untitled Paste"
    synt := req.synt.getD "none"
    expires := req.expires.getD "never"
    visibility := req.visibility.getD "public"
    created_at := now }

/-- POST /api/paste (src/main.py lines 59-80).  A request without a content
field is refused by FastAPI before the handler runs, because content is a
required form parameter; otherwise the handler builds the row with defaults
for absent optional fields, inserts it and returns the paste URL.  The handler
performs no retry: an insert failure is surfaced. -/
def create_paste (store : List Paste) (req : CreateRequest) (g : String)
    (now : Nat) : Except ApiError (List Paste × String) :=
  match req.content with
  | none => .error .validation
  | some c =>
    match insertPaste store (defaulted req g now c) with
    | .error e => .error e
    | .ok s => .ok (s, "/paste/" ++ g)

/-- GET /paste/(paste_id) (src/main.py lines 96-112): fetch by primary key,
HTTPException 404 when absent, otherwise the record handed to the template. -/
def view_paste (store : List Paste) (pid : String) : Except ApiError Paste :=
  match fetchById store pid with
  | none => .error .notFound
  | some p => .ok p

/-- Descending order on a numeric key: a sorts no later than b when the key
of a is at least the key of b, matching ORDER BY key DESC with arbitrary tie
order. -/
def keyGE {α : Type} (key : α → Nat) (a b : α) : Prop :=
  key b ≤ key a

instance {α : Type} (key : α → Nat) : DecidableRel (keyGE key) :=
  fun a b => Nat.decLe (key b) (key a)

instance {α : Type} (key : α → Nat) : IsTotal α (keyGE key) :=
  ⟨fun a b => Nat.le_total (key b) (key a)⟩

instance {α : Type} (key : α → Nat) : IsTrans α (keyGE key) :=
  ⟨fun _ _ _ hab hbc => Nat.le_trans hbc hab⟩

/-- Sort key of /api/top: length(content). -/
def contentLen (p : Paste) : Nat := p.content.length

/-- Sort key of /api/recent: created_at. -/
def createdAt (p : Paste) : Nat := p.created_at

/-- The rows produced by ORDER BY length(content) DESC LIMIT 10. -/
def topRanked (store : List Paste) : List Paste :=
  (List.insertionSort (keyGE contentLen) store).take 10

/-- GET /api/top (src/main.py lines 84-92): id and title of up to 10 pastes,
longest content first. -/
def top_pastes (store : List Paste) : List (String × String) :=
  (topRanked store).map (fun p => (p.id, p.title))

/-- The rows produced by ORDER BY created_at DESC LIMIT 10. -/
def recentRanked (store : List Paste) : List Paste :=
  (List.insertionSort (keyGE createdAt) store).take 10

/-- GET /api/recent (src/main.py lines 116-124): id and title of up to 10
pastes, most recent first. -/
def recent_pastes (store : List Paste) : List (String × String) :=
  (recentRanked store).map (fun p => (p.id, p.title))

/-- GET /ping (src/main.py lines 128-130). -/
def ping : String := "alive"

/-- One inbound request, with the nondeterministic inputs of creation made
explicit. -/
inductive Op where
  | create (req : CreateRequest) (g : String) (now : Nat)
  | view (pid : String)
  | top
  | recent
  | ping

/-- Effect of one request on the `pastes` table: only a successful creation
changes it; a failed creation and every read leave it untouched. -/
def applyOp (store : List Paste) : Op → List Paste
  | .create req g now =>
    match create_paste store req g now with
    | .ok (s, _) => s
    | .error _ => store
  | _ => store

/-- Table state after a sequence of requests. -/
def runOps (store : List Paste) (ops : List Op) : List Paste :=
  ops.foldl applyOp store

/-- The ids consumed by the creations of a request sequence. -/
def issuedIds (ops : List Op) : List String :=
  ops.filterMap (fun op =>
    match op with
    | .create _ g _ => some g
    | _ => none)

/-- A successful creation means the content field was present, the generated
id was fresh, the defaulted row was appended, and the URL names the id. -/
theorem create_paste_ok {store : List Paste} {req : CreateRequest} {g : String}
    {now : Nat} {s : List Paste} {u : String}
    (h : create_paste store req g now = .ok (s, u)) :
    ∃ c, req.content = some c ∧ fetchById store g = none ∧
      s = store ++ [defaulted req g now c] ∧ u = "/paste/" ++ g := by
  cases hc : req.content with
  | none =>
    simp only [create_paste, hc] at h
    exact absurd h (by simp)
  | some c =>
    have hid : (defaulted req g now c).id = g := rfl
    cases hf : fetchById store g with
    | some p =>
      simp only [create_paste, insertPaste, hc, hid, hf] at h
      exact absurd h (by simp)
    | none =>
      simp only [create_paste, insertPaste, hc, hid, hf, Except.ok.injEq,
        Prod.mk.injEq] at h
      exact ⟨c, rfl, rfl, h.1.symm, h.2.symm⟩

/-- Evaluation of a creation whose content is present and whose id is fresh. -/
theorem create_paste_eq {store : List Paste} {req : CreateRequest} {g : String}
    {now : Nat} {c : String}
    (hc : req.content = some c) (hfresh : fetchById store g = none) :
    create_paste store req g now =
      .ok (store ++ [defaulted req g now c], "/paste/" ++ g) := by
  have hid : (defaulted req g now c).id = g := rfl
  simp only [create_paste, insertPaste, hc, hid, hfresh]

/-- Appending a row does not change a lookup that already had a hit. -/
theorem fetchById_append_of_some {store : List Paste} {p q : Paste}
    {pid : String} (h : fetchById store pid = some q) :
    fetchById (store ++ [p]) pid = some q := by
  unfold fetchById at h ⊢
  rw [List.find?_append, h]
  rfl

/-- A lookup in a table extended by one row, when the old table had no hit,
hits exactly when the new row carries the id. -/
theorem fetchById_append_of_none {store : List Paste} {p : Paste}
    {pid : String} (h : fetchById store pid = none) :
    fetchById (store ++ [p]) pid = if p.id == pid then some p else none := by
  unfold fetchById at h ⊢
  rw [List.find?_append, h]
  cases hpq : p.id == pid <;> simp [List.find?, hpq]

/-- C1: for every valid creation input, create_paste followed by view_paste on
the returned id yields a record whose content, title, syntax, expires and
visibility fields equal the supplied inputs, with the documented defaults
(Untitled Paste, none, never, public) substituted for every absent optional
field, and whose created_at is the clock reading taken during the call, hence
between the start and the end of the call. -/
theorem create_then_view_roundtrip (store : List Paste) (req : CreateRequest)
    (g : String) (now tstart tend : Nat) (c : String)
    (hc : req.content = some c) (hfresh : fetchById store g = none)
    (hstart : tstart ≤ now) (hend : now ≤ tend) :
    ∃ s, create_paste store req g now = .ok (s, "/paste/" ++ g) ∧
      ∃ pr, view_paste s g = .ok pr ∧
        pr.content = c ∧
        pr.title = req.title.getD "Untitled Paste" ∧
        pr.synt = req.synt.getD "none" ∧
        pr.expires = req.expires.getD "never" ∧
        pr.visibility = req.visibility.getD "public" ∧
        tstart ≤ pr.created_at ∧ pr.created_at ≤ tend := by
  refine ⟨_, create_paste_eq hc hfresh, defaulted req g now c, ?_,
    rfl, rfl, rfl, rfl, rfl, hstart, hend⟩
  unfold view_paste
  rw [fetchById_append_of_none hfresh]
  simp [defaulted]

/-- Witness for C1 at a concrete input. -/
theorem create_then_view_roundtrip_witness :
    ((⟨some "hello world", none, none, none, none⟩ : CreateRequest).content =
        some "hello world") ∧
    fetchById [] "0a1b2c3d" = none ∧ 4 ≤ 5 ∧ 5 ≤ 6 ∧
    (∃ s, create_paste [] ⟨some "hello world", none, none, none, none⟩
        "0a1b2c3d" 5 = .ok (s, "/paste/" ++ "0a1b2c3d") ∧
      ∃ pr, view_paste s "0a1b2c3d" = .ok pr ∧
        pr.content = "hello world" ∧
        pr.title = "Untitled Paste" ∧
        pr.synt = "none" ∧
        pr.expires = "never" ∧
        pr.visibility = "public" ∧
        4 ≤ pr.created_at ∧ pr.created_at ≤ 6) :=
  ⟨rfl, rfl, by decide, by decide,
    create_then_view_roundtrip [] ⟨some "hello world", none, none, none, none⟩
      "0a1b2c3d" 5 4 6 "hello world" rfl rfl (by decide) (by decide)⟩

/-- C2 counterexample: content supplied as the empty string is not rejected:
the creation succeeds and a record with empty content is stored. -/
theorem empty_content_accepted :
    create_paste [] ⟨some "", none, none, none, none⟩ "0a1b2c3d" 5 =
      .ok ([⟨"0a1b2c3d", "", "Untitled Paste", "none", "never", "public", 5⟩],
        "/paste/0a1b2c3d") ∧
    (applyOp [] (.create ⟨some "", none, none, none, none⟩ "0a1b2c3d" 5)).length
      = 1 := by
  constructor <;> rfl

/-- C2 amended: a request with no content field at all fails with a
validation error, surfaced as HTTP 422, and stores nothing; but a request
whose content is present and empty is accepted and stored with empty
content. -/
theorem content_validation (store : List Paste) (req reqE : CreateRequest)
    (g : String) (now : Nat)
    (hmissing : req.content = none) (hempty : reqE.content = some "")
    (hfresh : fetchById store g = none) :
    create_paste store req g now = .error .validation ∧
    statusOf .validation = 422 ∧
    applyOp store (.create req g now) = store ∧
    create_paste store reqE g now =
      .ok (store ++ [defaulted reqE g now ""], "/paste/" ++ g) := by
  have h1 : create_paste store req g now = .error .validation := by
    simp only [create_paste, hmissing]
  refine ⟨h1, rfl, ?_, @create_paste_eq store reqE g now "" hempty hfresh⟩
  simp only [applyOp, h1]

/-- Witness for the amended C2 at a concrete input. -/
theorem content_validation_witness :
    ((⟨none, none, none, none, none⟩ : CreateRequest).content = none) ∧
    ((⟨some "", none, none, none, none⟩ : CreateRequest).content = some "") ∧
    fetchById [] "0a1b2c3d" = none ∧
    (create_paste [] ⟨none, none, none, none, none⟩ "0a1b2c3d" 5 =
        .error .validation ∧
      statusOf .validation = 422 ∧
      applyOp [] (.create ⟨none, none, none, none, none⟩ "0a1b2c3d" 5) = [] ∧
      create_paste [] ⟨some "", none, none, none, none⟩ "0a1b2c3d" 5 =
        .ok ([] ++ [defaulted ⟨some "", none, none, none, none⟩ "0a1b2c3d" 5 ""],
          "/paste/" ++ "0a1b2c3d")) :=
  ⟨rfl, rfl, rfl,
    content_validation [] ⟨none, none, none, none, none⟩
      ⟨some "", none, none, none, none⟩ "0a1b2c3d" 5 rfl rfl rfl⟩

/-- C5 counterexample: with a stored paste of id 0a1b2c3d, a creation whose
generated id collides is not retried: the conflict failure is surfaced to the
caller. -/
theorem conflict_not_retried :
    create_paste [⟨"0a1b2c3d", "x", "t", "none", "never", "public", 0⟩]
      ⟨some "y", none, none, none, none⟩ "0a1b2c3d" 5 = .error .conflict := by
  rfl

/-- C5 amended: inserting a row whose id already exists fails with a conflict
error and leaves the table unchanged; the create path performs no retry, so
the same conflict is surfaced by create_paste, as a 5xx failure, and the
table is unchanged. -/
theorem conflict_surfaced (store : List Paste) (req : CreateRequest)
    (g : String) (now : Nat) (c : String) (p : Paste)
    (hc : req.content = some c) (hdup : fetchById store g = some p) :
    insertPaste store (defaulted req g now c) = .error .conflict ∧
    create_paste store req g now = .error .conflict ∧
    applyOp store (.create req g now) = store ∧
    statusOf .conflict = 500 := by
  have hid : (defaulted req g now c).id = g := rfl
  have h1 : insertPaste store (defaulted req g now c) = .error .conflict := by
    simp only [insertPaste, hid, hdup]
  have h2 : create_paste store req g now = .error .conflict := by
    simp only [create_paste, hc, h1]
  refine ⟨h1, h2, ?_, rfl⟩
  simp only [applyOp, h2]

/-- Witness for the amended C5 at a concrete input. -/
theorem conflict_surfaced_witness :
    ((⟨some "y", none, none, none, none⟩ : CreateRequest).content = some "y") ∧
    fetchById [⟨"0a1b2c3d", "x", "t", "none", "never", "public", 0⟩] "0a1b2c3d"
      = some ⟨"0a1b2c3d", "x", "t", "none", "never", "public", 0⟩ ∧
    (insertPaste [⟨"0a1b2c3d", "x", "t", "none", "never", "public", 0⟩]
        (defaulted ⟨some "y", none, none, none, none⟩ "0a1b2c3d" 5 "y") =
        .error .conflict ∧
      create_paste [⟨"0a1b2c3d", "x", "t", "none", "never", "public", 0⟩]
        ⟨some "y", none, none, none, none⟩ "0a1b2c3d" 5 = .error .conflict ∧
      applyOp [⟨"0a1b2c3d", "x", "t", "none", "never", "public", 0⟩]
        (.create ⟨some "y", none, none, none, none⟩ "0a1b2c3d" 5) =
        [⟨"0a1b2c3d", "x", "t", "none", "never", "public", 0⟩] ∧
      statusOf .conflict = 500) :=
  ⟨rfl, rfl,
    conflict_surfaced [⟨"0a1b2c3d", "x", "t", "none", "never", "public", 0⟩]
      ⟨some "y", none, none, none, none⟩ "0a1b2c3d" 5 "y"
      ⟨"0a1b2c3d", "x", "t", "none", "never", "public", 0⟩ rfl rfl⟩

/-- A successful view is exactly a lookup hit. -/
theorem view_paste_ok_iff {store : List Paste} {pid : String} {p : Paste} :
    view_paste store pid = .ok p ↔ fetchById store pid = some p := by
  unfold view_paste
  cases hf : fetchById store pid <;> simp

/-- No request removes a record: a row present before a request is present
after it. -/
theorem applyOp_preserves_mem {store : List Paste} {p : Paste} (op : Op)
    (hmem : p ∈ store) : p ∈ applyOp store op := by
  cases op with
  | create req g now =>
    cases hcr : create_paste store req g now with
    | error e =>
      simp only [applyOp, hcr]
      exact hmem
    | ok pr =>
      obtain ⟨s, u⟩ := pr
      obtain ⟨c, _, _, hs, _⟩ := create_paste_ok hcr
      simp only [applyOp, hcr, hs]
      exact List.mem_append_left _ hmem
  | view pid => exact hmem
  | top => exact hmem
  | recent => exact hmem
  | ping => exact hmem

/-- No request rebinds an id: a lookup that hits keeps hitting the very same
record after any request. -/
theorem applyOp_preserves_fetch {store : List Paste} {p : Paste} {pid : String}
    (op : Op) (hf : fetchById store pid = some p) :
    fetchById (applyOp store op) pid = some p := by
  cases op with
  | create req g now =>
    cases hcr : create_paste store req g now with
    | error e =>
      simp only [applyOp, hcr]
      exact hf
    | ok pr =>
      obtain ⟨s, u⟩ := pr
      obtain ⟨c, _, _, hs, _⟩ := create_paste_ok hcr
      simp only [applyOp, hcr, hs]
      exact fetchById_append_of_some hf
  | view pid2 => exact hf
  | top => exact hf
  | recent => exact hf
  | ping => exact hf

/-- Membership survives every request sequence. -/
theorem runOps_preserves_mem (ops : List Op) {store : List Paste} {p : Paste}
    (hmem : p ∈ store) : p ∈ runOps store ops := by
  induction ops generalizing store with
  | nil => exact hmem
  | cons op rest ih => exact ih (applyOp_preserves_mem op hmem)

/-- A lookup hit survives every request sequence. -/
theorem runOps_preserves_fetch (ops : List Op) {store : List Paste} {p : Paste}
    {pid : String} (hf : fetchById store pid = some p) :
    fetchById (runOps store ops) pid = some p := by
  induction ops generalizing store with
  | nil => exact hf
  | cons op rest ih => exact ih (applyOp_preserves_fetch op hf)

/-- A request that is not a creation of id pid keeps a lookup miss on pid. -/
theorem applyOp_fetch_none {store : List Paste} {pid : String} (op : Op)
    (hf : fetchById store pid = none)
    (hni : ∀ req g now, op = .create req g now → g ≠ pid) :
    fetchById (applyOp store op) pid = none := by
  cases op with
  | create req g now =>
    cases hcr : create_paste store req g now with
    | error e =>
      simp only [applyOp, hcr]
      exact hf
    | ok pr =>
      obtain ⟨s, u⟩ := pr
      obtain ⟨c, _, _, hs, _⟩ := create_paste_ok hcr
      simp only [applyOp, hcr, hs]
      rw [fetchById_append_of_none hf]
      have hg : ((defaulted req g now c).id == pid) = false :=
        beq_eq_false_iff_ne.mpr (hni req g now rfl)
      rw [hg]
      rfl
  | view pid2 => exact hf
  | top => exact hf
  | recent => exact hf
  | ping => exact hf

/-- An id issued by no creation of a request sequence is a lookup miss
throughout, when it misses initially. -/
theorem fetchById_runOps_none (ops : List Op) {store : List Paste}
    {pid : String} (hf : fetchById store pid = none)
    (hni : pid ∉ issuedIds ops) :
    fetchById (runOps store ops) pid = none := by
  induction ops generalizing store with
  | nil => exact hf
  | cons op rest ih =>
    cases op with
    | create req g now =>
      simp only [issuedIds, List.filterMap_cons, List.mem_cons] at hni
      push_neg at hni
      refine ih ?_ hni.2
      exact applyOp_fetch_none _ hf
        (fun req2 g2 now2 heq => by cases heq; exact fun hgp => hni.1 hgp.symm)
    | view pid2 =>
      simp only [issuedIds, List.filterMap_cons] at hni
      exact ih (applyOp_fetch_none _ hf (fun _ _ _ h => nomatch h)) hni
    | top =>
      simp only [issuedIds, List.filterMap_cons] at hni
      exact ih (applyOp_fetch_none _ hf (fun _ _ _ h => nomatch h)) hni
    | recent =>
      simp only [issuedIds, List.filterMap_cons] at hni
      exact ih (applyOp_fetch_none _ hf (fun _ _ _ h => nomatch h)) hni
    | ping =>
      simp only [issuedIds, List.filterMap_cons] at hni
      exact ih (applyOp_fetch_none _ hf (fun _ _ _ h => nomatch h)) hni

/-- C6: starting from the empty table, viewing an id never issued by any
creation of the request sequence fails with the not-found error and no other,
surfaced as HTTP 404, and leaves the table unchanged. -/
theorem view_never_issued_404 (ops : List Op) (pid : String)
    (hnever : pid ∉ issuedIds ops) :
    view_paste (runOps [] ops) pid = .error .notFound ∧
    statusOf .notFound = 404 ∧
    (∀ e, view_paste (runOps [] ops) pid = .error e → e = .notFound) ∧
    applyOp (runOps [] ops) (.view pid) = runOps [] ops := by
  have hf : fetchById (runOps [] ops) pid = none :=
    fetchById_runOps_none ops rfl hnever
  have h1 : view_paste (runOps [] ops) pid = .error .notFound := by
    unfold view_paste
    rw [hf]
  refine ⟨h1, rfl, ?_, rfl⟩
  intro e he
  rw [h1] at he
  cases he
  rfl

/-- Witness for C6 at a concrete input. -/
theorem view_never_issued_404_witness :
    "ffffffff" ∉
      issuedIds [.create ⟨some "x", none, none, none, none⟩ "0a1b2c3d" 0] ∧
    (view_paste
        (runOps [] [.create ⟨some "x", none, none, none, none⟩ "0a1b2c3d" 0])
        "ffffffff" = .error .notFound ∧
      statusOf .notFound = 404 ∧
      (∀ e, view_paste
          (runOps [] [.create ⟨some "x", none, none, none, none⟩ "0a1b2c3d" 0])
          "ffffffff" = .error e → e = .notFound) ∧
      applyOp
        (runOps [] [.create ⟨some "x", none, none, none, none⟩ "0a1b2c3d" 0])
        (.view "ffffffff") =
        runOps [] [.create ⟨some "x", none, none, none, none⟩ "0a1b2c3d" 0]) :=
  ⟨by decide,
    view_never_issued_404
      [.create ⟨some "x", none, none, none, none⟩ "0a1b2c3d" 0] "ffffffff"
      (by decide)⟩

/-- C7: records are immutable: every record present before a request sequence
is present, field for field identical, afterwards, no id is rebound, and a
view that returned a record keeps returning exactly that record after the
sequence. -/
theorem records_never_mutated (store : List Paste) (ops : List Op)
    (p : Paste) (pid : String)
    (hmem : p ∈ store) (hview : view_paste store pid = .ok p) :
    p ∈ runOps store ops ∧ view_paste (runOps store ops) pid = .ok p := by
  refine ⟨runOps_preserves_mem ops hmem, ?_⟩
  exact view_paste_ok_iff.mpr
    (runOps_preserves_fetch ops (view_paste_ok_iff.mp hview))

/-- Witness for C7 at a concrete input. -/
theorem records_never_mutated_witness :
    (⟨"0a1b2c3d", "x", "t", "none", "never", "public", 0⟩ : Paste) ∈
      [(⟨"0a1b2c3d", "x", "t", "none", "never", "public", 0⟩ : Paste)] ∧
    view_paste [⟨"0a1b2c3d", "x", "t", "none", "never", "public", 0⟩]
      "0a1b2c3d" = .ok ⟨"0a1b2c3d", "x", "t", "none", "never", "public", 0⟩ ∧
    ((⟨"0a1b2c3d", "x", "t", "none", "never", "public", 0⟩ : Paste) ∈
      runOps [⟨"0a1b2c3d", "x", "t", "none", "never", "public", 0⟩]
        [.view "0a1b2c3d",
          .create ⟨some "y", none, none, none, none⟩ "deadbeef" 3, .top] ∧
      view_paste
        (runOps [⟨"0a1b2c3d", "x", "t", "none", "never", "public", 0⟩]
          [.view "0a1b2c3d",
            .create ⟨some "y", none, none, none, none⟩ "deadbeef" 3, .top])
        "0a1b2c3d" =
        .ok ⟨"0a1b2c3d", "x", "t", "none", "never", "public", 0⟩) :=
  ⟨List.mem_cons_self _ _, rfl,
    records_never_mutated [⟨"0a1b2c3d", "x", "t", "none", "never", "public", 0⟩]
      [.view "0a1b2c3d",
        .create ⟨some "y", none, none, none, none⟩ "deadbeef" 3, .top]
      ⟨"0a1b2c3d", "x", "t", "none", "never", "public", 0⟩ "0a1b2c3d"
      (List.mem_cons_self _ _) rfl⟩

/-- In the capped descending ranking, a row whose key strictly dominates the
key of every other row comes first. -/
theorem head_of_ranked (key : Paste → Nat) (store : List Paste) (p : Paste)
    (hp : p ∈ store) (hdom : ∀ q ∈ store, q ≠ p → key q < key p) :
    ((List.insertionSort (keyGE key) store).take 10).head? = some p := by
  rcases hs : List.insertionSort (keyGE key) store with _ | ⟨h, t⟩
  · have hmem : p ∈ List.insertionSort (keyGE key) store :=
      (List.perm_insertionSort (keyGE key) store).mem_iff.mpr hp
    rw [hs] at hmem
    cases hmem
  · have hmemh : h ∈ store := by
      have hh : h ∈ List.insertionSort (keyGE key) store := by
        rw [hs]
        exact List.mem_cons_self _ _
      exact (List.perm_insertionSort (keyGE key) store).mem_iff.mp hh
    have hsorted := List.sorted_insertionSort (keyGE key) store
    rw [hs] at hsorted
    have hmemp : p ∈ h :: t := by
      have hh : p ∈ List.insertionSort (keyGE key) store :=
        (List.perm_insertionSort (keyGE key) store).mem_iff.mpr hp
      rw [hs] at hh
      exact hh
    have hhp : h = p := by
      by_contra hne
      have hlt : key h < key p := hdom h hmemh hne
      rcases List.mem_cons.mp hmemp with heq | hmemt
      · exact hne heq.symm
      · exact absurd hlt (not_lt.mpr (List.rel_of_sorted_cons hsorted p hmemt))
    rw [List.head?_take, if_neg (by decide), hhp]
    rfl

/-- C3: for every table state, /api/top returns at most 10 rows, each the
id-title projection of a stored paste with content never included, the
underlying rows are ordered by content length descending, and whenever some
paste has content strictly longer than the content of every other stored
paste, it is listed first regardless of its position in the table. -/
theorem top_listing (store : List Paste) :
    (top_pastes store).length ≤ 10 ∧
    List.Pairwise (keyGE contentLen) (topRanked store) ∧
    (∀ x ∈ top_pastes store, ∃ q ∈ store, x = (q.id, q.title)) ∧
    (∀ p ∈ store, (∀ q ∈ store, q ≠ p → contentLen q < contentLen p) →
      (top_pastes store).head? = some (p.id, p.title)) := by
  refine ⟨?_, ?_, ?_, ?_⟩
  · simp only [top_pastes, topRanked, List.length_map, List.length_take]
    exact min_le_left _ _
  · exact List.Pairwise.sublist (List.take_sublist _ _)
      (List.sorted_insertionSort (keyGE contentLen) store)
  · intro x hx
    simp only [top_pastes, topRanked] at hx
    obtain ⟨q, hq, hxq⟩ := List.mem_map.mp hx
    refine ⟨q, ?_, hxq.symm⟩
    have hq2 : q ∈ List.insertionSort (keyGE contentLen) store :=
      (List.take_sublist _ _).subset hq
    exact (List.perm_insertionSort (keyGE contentLen) store).mem_iff.mp hq2
  · intro p hp hdom
    have hh := head_of_ranked contentLen store p hp hdom
    simp only [top_pastes, topRanked, List.head?_map]
    rw [hh]
    rfl

/-- Witness for C3 at a concrete two-row table, exercising the dominance
implication at its strictly longest row. -/
theorem top_listing_witness :
    ((top_pastes [⟨"aaaa0001", "ab", "t1", "none", "never", "public", 1⟩,
        ⟨"aaaa0002", "abcd", "t2", "none", "never", "public", 2⟩]).length ≤ 10 ∧
      List.Pairwise (keyGE contentLen)
        (topRanked [⟨"aaaa0001", "ab", "t1", "none", "never", "public", 1⟩,
          ⟨"aaaa0002", "abcd", "t2", "none", "never", "public", 2⟩]) ∧
      (∀ x ∈ top_pastes [⟨"aaaa0001", "ab", "t1", "none", "never", "public", 1⟩,
          ⟨"aaaa0002", "abcd", "t2", "none", "never", "public", 2⟩],
        ∃ q ∈ [(⟨"aaaa0001", "ab", "t1", "none", "never", "public", 1⟩ : Paste),
          ⟨"aaaa0002", "abcd", "t2", "none", "never", "public", 2⟩],
          x = (q.id, q.title)) ∧
      (∀ p ∈ [(⟨"aaaa0001", "ab", "t1", "none", "never", "public", 1⟩ : Paste),
          ⟨"aaaa0002", "abcd", "t2", "none", "never", "public", 2⟩],
        (∀ q ∈ [(⟨"aaaa0001", "ab", "t1", "none", "never", "public", 1⟩ : Paste),
            ⟨"aaaa0002", "abcd", "t2", "none", "never", "public", 2⟩],
          q ≠ p → contentLen q < contentLen p) →
          (top_pastes [⟨"aaaa0001", "ab", "t1", "none", "never", "public", 1⟩,
            ⟨"aaaa0002", "abcd", "t2", "none", "never", "public", 2⟩]).head? =
            some (p.id, p.title))) ∧
    (top_pastes [⟨"aaaa0001", "ab", "t1", "none", "never", "public", 1⟩,
        ⟨"aaaa0002", "abcd", "t2", "none", "never", "public", 2⟩]).head? =
      some ("aaaa0002", "t2") :=
  have h := top_listing [⟨"aaaa0001", "ab", "t1", "none", "never", "public", 1⟩,
    ⟨"aaaa0002", "abcd", "t2", "none", "never", "public", 2⟩]
  ⟨h, h.2.2.2 ⟨"aaaa0002", "abcd", "t2", "none", "never", "public", 2⟩
    (by decide) (by decide)⟩

/-- C4: /api/recent returns at most 10 rows, each the id-title projection of a
stored paste, the underlying rows are ordered by created_at descending, and
after a creation whose timestamp is later than the timestamp of every stored
row the new paste is listed first. -/
theorem recent_listing (store : List Paste) (req : CreateRequest)
    (g : String) (now : Nat) (c : String) (s : List Paste) (u : String)
    (hc : req.content = some c)
    (hlater : ∀ q ∈ store, q.created_at < now)
    (hcr : create_paste store req g now = .ok (s, u)) :
    (recent_pastes store).length ≤ 10 ∧
    List.Pairwise (keyGE createdAt) (recentRanked store) ∧
    (∀ x ∈ recent_pastes store, ∃ q ∈ store, x = (q.id, q.title)) ∧
    (recent_pastes s).head? = some (g, req.title.getD "Untitled Paste") := by
  obtain ⟨c2, hc2, _, hs, _⟩ := create_paste_ok hcr
  rw [hc] at hc2
  injection hc2 with hcc
  subst hcc
  refine ⟨?_, ?_, ?_, ?_⟩
  · simp only [recent_pastes, recentRanked, List.length_map, List.length_take]
    exact min_le_left _ _
  · exact List.Pairwise.sublist (List.take_sublist _ _)
      (List.sorted_insertionSort (keyGE createdAt) store)
  · intro x hx
    simp only [recent_pastes, recentRanked] at hx
    obtain ⟨q, hq, hxq⟩ := List.mem_map.mp hx
    refine ⟨q, ?_, hxq.symm⟩
    have hq2 : q ∈ List.insertionSort (keyGE createdAt) store :=
      (List.take_sublist _ _).subset hq
    exact (List.perm_insertionSort (keyGE createdAt) store).mem_iff.mp hq2
  · have hmemd : defaulted req g now c ∈ s := by
      rw [hs]
      exact List.mem_append_right _ (List.mem_cons_self _ _)
    have hdom : ∀ q ∈ s, q ≠ defaulted req g now c →
        createdAt q < createdAt (defaulted req g now c) := by
      intro q hq hne
      rw [hs] at hq
      rcases List.mem_append.mp hq with hq1 | hq2
      · exact hlater q hq1
      · exact absurd (List.mem_singleton.mp hq2) hne
    have hh := head_of_ranked createdAt s (defaulted req g now c) hmemd hdom
    simp only [recent_pastes, recentRanked, List.head?_map]
    rw [hh]
    rfl

/-- Witness for C4 at a concrete input. -/
theorem recent_listing_witness :
    ((⟨some "zz", some "T", none, none, none⟩ : CreateRequest).content =
      some "zz") ∧
    (∀ q ∈ [(⟨"aaaa0001", "ab", "t1", "none", "never", "public", 1⟩ : Paste)],
      q.created_at < 5) ∧
    create_paste [⟨"aaaa0001", "ab", "t1", "none", "never", "public", 1⟩]
      ⟨some "zz", some "T", none, none, none⟩ "bbbb0001" 5 =
      .ok ([⟨"aaaa0001", "ab", "t1", "none", "never", "public", 1⟩] ++
        [defaulted ⟨some "zz", some "T", none, none, none⟩ "bbbb0001" 5 "zz"],
        "/paste/" ++ "bbbb0001") ∧
    ((recent_pastes
        [⟨"aaaa0001", "ab", "t1", "none", "never", "public", 1⟩]).length ≤ 10 ∧
      List.Pairwise (keyGE createdAt)
        (recentRanked [⟨"aaaa0001", "ab", "t1", "none", "never", "public", 1⟩]) ∧
      (∀ x ∈ recent_pastes
          [⟨"aaaa0001", "ab", "t1", "none", "never", "public", 1⟩],
        ∃ q ∈ [(⟨"aaaa0001", "ab", "t1", "none", "never", "public", 1⟩ : Paste)],
          x = (q.id, q.title)) ∧
      (recent_pastes
          ([⟨"aaaa0001", "ab", "t1", "none", "never", "public", 1⟩] ++
            [defaulted ⟨some "zz", some "T", none, none, none⟩
              "bbbb0001" 5 "zz"])).head? = some ("bbbb0001", "T")) :=
  ⟨rfl, by decide, rfl,
    recent_listing [⟨"aaaa0001", "ab", "t1", "none", "never", "public", 1⟩]
      ⟨some "zz", some "T", none, none, none⟩ "bbbb0001" 5 "zz"
      ([⟨"aaaa0001", "ab", "t1", "none", "never", "public", 1⟩] ++
        [defaulted ⟨some "zz", some "T", none, none, none⟩ "bbbb0001" 5 "zz"])
      ("/paste/" ++ "bbbb0001") rfl (by decide) (by rfl)⟩

/-- Every value a nibble can take is rendered as a lowercase hexadecimal
character. -/
theorem hexDigit_lower_hex (n : Nat) (hn : n < 16) :
    ('0' ≤ hexDigit n ∧ hexDigit n ≤ '9') ∨
      ('a' ≤ hexDigit n ∧ hexDigit n ≤ 'f') := by
  have hfin : ∀ m : Fin 16,
      ('0' ≤ hexDigit m.val ∧ hexDigit m.val ≤ '9') ∨
        ('a' ≤ hexDigit m.val ∧ hexDigit m.val ≤ 'f') := by decide
  exact hfin ⟨n, hn⟩

/-- A generated id has exactly 8 characters. -/
theorem generate_length (r : Nat) : (generate r).length = 8 := by
  simp only [generate, uuidHexChars, String.length_mk, List.length_take,
    List.length_map, List.length_range]
  rfl

/-- Every character of a generated id is a lowercase hexadecimal digit. -/
theorem generate_chars (r : Nat) :
    ∀ ch ∈ (generate r).data,
      ('0' ≤ ch ∧ ch ≤ '9') ∨ ('a' ≤ ch ∧ ch ≤ 'f') := by
  intro ch hch
  have hch1 : ch ∈ (uuidHexChars r).take 8 := hch
  have hch2 : ch ∈ uuidHexChars r := List.mem_of_mem_take hch1
  simp only [uuidHexChars, List.mem_map] at hch2
  obtain ⟨i, _, hi⟩ := hch2
  subst hi
  exact hexDigit_lower_hex _ (Nat.mod_lt _ (by decide))

/-- C8: every generated id is exactly 8 characters long, each a lowercase
hexadecimal digit, and a creation under a generated id answers with the URL
/paste/ followed by that 8-character id. -/
theorem generated_id_shape (r : Nat) (store : List Paste) (req : CreateRequest)
    (now : Nat) (c : String)
    (hc : req.content = some c) (hfresh : fetchById store (generate r) = none) :
    (generate r).length = 8 ∧
    (∀ ch ∈ (generate r).data,
      ('0' ≤ ch ∧ ch ≤ '9') ∨ ('a' ≤ ch ∧ ch ≤ 'f')) ∧
    create_paste store req (generate r) now =
      .ok (store ++ [defaulted req (generate r) now c],
        "/paste/" ++ generate r) :=
  ⟨generate_length r, generate_chars r,
    @create_paste_eq store req (generate r) now c hc hfresh⟩

/-- Witness for C8 at a concrete input. -/
theorem generated_id_shape_witness :
    ((⟨some "hello world", none, none, none, none⟩ : CreateRequest).content =
      some "hello world") ∧
    fetchById [] (generate 0) = none ∧
    ((generate 0).length = 8 ∧
      (∀ ch ∈ (generate 0).data,
        ('0' ≤ ch ∧ ch ≤ '9') ∨ ('a' ≤ ch ∧ ch ≤ 'f')) ∧
      create_paste [] ⟨some "hello world", none, none, none, none⟩
        (generate 0) 7 =
        .ok ([] ++ [defaulted ⟨some "hello world", none, none, none, none⟩
          (generate 0) 7 "hello world"], "/paste/" ++ generate 0)) :=
  ⟨rfl, rfl,
    generated_id_shape 0 [] ⟨some "hello world", none, none, none, none⟩
      7 "hello world" rfl rfl⟩

/-- A stored row stripped of its visibility field. -/
def stripVis (p : Paste) : String × String × String × String × String × Nat :=
  (p.id, p.content, p.title, p.synt, p.expires, p.created_at)

/-- Content length of a visibility-stripped row. -/
def rowContentLen (t : String × String × String × String × String × Nat) :
    Nat :=
  t.2.1.length

/-- Creation time of a visibility-stripped row. -/
def rowCreatedAt (t : String × String × String × String × String × Nat) :
    Nat :=
  t.2.2.2.2.2

/-- The top listing computed from visibility-stripped rows. -/
def rowsTop (rows : List (String × String × String × String × String × Nat)) :
    List (String × String) :=
  ((List.insertionSort (keyGE rowContentLen) rows).take 10).map
    (fun t => (t.1, t.2.2.1))

/-- The recent listing computed from visibility-stripped rows. -/
def rowsRecent
    (rows : List (String × String × String × String × String × Nat)) :
    List (String × String) :=
  ((List.insertionSort (keyGE rowCreatedAt) rows).take 10).map
    (fun t => (t.1, t.2.2.1))

/-- The top listing reads nothing but the visibility-stripped rows. -/
theorem top_pastes_eq_rows (s : List Paste) :
    top_pastes s = rowsTop (s.map stripVis) := by
  unfold top_pastes rowsTop topRanked
  rw [← List.map_insertionSort (keyGE contentLen) (keyGE rowContentLen)
    stripVis s (fun a _ b _ => Iff.rfl), ← List.map_take, List.map_map]
  rfl

/-- The recent listing reads nothing but the visibility-stripped rows. -/
theorem recent_pastes_eq_rows (s : List Paste) :
    recent_pastes s = rowsRecent (s.map stripVis) := by
  unfold recent_pastes rowsRecent recentRanked
  rw [← List.map_insertionSort (keyGE createdAt) (keyGE rowCreatedAt)
    stripVis s (fun a _ b _ => Iff.rfl), ← List.map_take, List.map_map]
  rfl

/-- C9: the top and recent listings do not depend on any visibility value:
two table states that agree row for row on every field except visibility
produce identical top and recent listings. -/
theorem listings_ignore_visibility (s t : List Paste)
    (h : s.map stripVis = t.map stripVis) :
    top_pastes s = top_pastes t ∧ recent_pastes s = recent_pastes t := by
  constructor
  · rw [top_pastes_eq_rows, top_pastes_eq_rows, h]
  · rw [recent_pastes_eq_rows, recent_pastes_eq_rows, h]

/-- Witness for C9: a one-row public table and the same table with the row
made private produce the same listings. -/
theorem listings_ignore_visibility_witness :
    [(⟨"aaaa0001", "ab", "t1", "none", "never", "public", 1⟩ : Paste)].map
        stripVis =
      [(⟨"aaaa0001", "ab", "t1", "none", "never", "private", 1⟩ : Paste)].map
        stripVis ∧
    (top_pastes [⟨"aaaa0001", "ab", "t1", "none", "never", "public", 1⟩] =
        top_pastes [⟨"aaaa0001", "ab", "t1", "none", "never", "private", 1⟩] ∧
      recent_pastes [⟨"aaaa0001", "ab", "t1", "none", "never", "public", 1⟩] =
        recent_pastes
          [⟨"aaaa0001", "ab", "t1", "none", "never", "private", 1⟩]) :=
  ⟨rfl,
    listings_ignore_visibility
      [⟨"aaaa0001", "ab", "t1", "none", "never", "public", 1⟩]
      [⟨"aaaa0001", "ab", "t1", "none", "never", "private", 1⟩] rfl⟩

/-- C10: defaults apply only to absent fields, never to empty values: in any
creation, each optional field that the request supplies as the empty string
is stored verbatim as the empty string, independently of the other fields,
instead of being replaced by its documented default. -/
theorem empty_optional_fields_stored (store : List Paste)
    (req : CreateRequest) (g : String) (now : Nat) (c : String)
    (hc : req.content = some c) (hfresh : fetchById store g = none) :
    ∃ s, create_paste store req g now = .ok (s, "/paste/" ++ g) ∧
      ∃ pr, view_paste s g = .ok pr ∧
        (req.title = some "" → pr.title = "") ∧
        (req.synt = some "" → pr.synt = "") ∧
        (req.expires = some "" → pr.expires = "") ∧
        (req.visibility = some "" → pr.visibility = "") := by
  refine ⟨_, @create_paste_eq store req g now c hc hfresh,
    defaulted req g now c, ?_, ?_, ?_, ?_, ?_⟩
  · unfold view_paste
    rw [fetchById_append_of_none hfresh]
    simp [defaulted]
  · intro ht
    simp [defaulted, ht]
  · intro hsx
    simp [defaulted, hsx]
  · intro he
    simp [defaulted, he]
  · intro hv
    simp [defaulted, hv]

/-- Witness for C10 at a concrete input that supplies only the title as the
empty string, leaving syntax absent and the rest non-empty. -/
theorem empty_optional_fields_stored_witness :
    ((⟨some "body", some "", none, some "1h", some "private"⟩ :
      CreateRequest).content = some "body") ∧
    fetchById [] "0a1b2c3d" = none ∧
    (∃ s, create_paste []
        ⟨some "body", some "", none, some "1h", some "private"⟩
        "0a1b2c3d" 5 = .ok (s, "/paste/" ++ "0a1b2c3d") ∧
      ∃ pr, view_paste s "0a1b2c3d" = .ok pr ∧
        ((⟨some "body", some "", none, some "1h", some "private"⟩ :
          CreateRequest).title = some "" → pr.title = "") ∧
        ((⟨some "body", some "", none, some "1h", some "private"⟩ :
          CreateRequest).synt = some "" → pr.synt = "") ∧
        ((⟨some "body", some "", none, some "1h", some "private"⟩ :
          CreateRequest).expires = some "" → pr.expires = "") ∧
        ((⟨some "body", some "", none, some "1h", some "private"⟩ :
          CreateRequest).visibility = some "" → pr.visibility = "")) :=
  ⟨rfl, rfl,
    empty_optional_fields_stored []
      ⟨some "body", some "", none, some "1h", some "private"⟩
      "0a1b2c3d" 5 "body" rfl rfl⟩

end Floydpaste
